import Mathlib

/-!
Verification of the real-time audio segmentation pipeline of the
`halloween` repository (src/src/audio_listener.py, src/src/config.py).

The embedding below translates the segmentation state machine of
`AudioListener._process_frames`, the flush policy of
`AudioListener._flush_frames`, the WAVE container construction of
`AudioListener._frames_to_wav`, the pause/resume/queue handling, and the
rolling transcript store (`AudioListener._append_transcript`,
`AudioListener.get_recent_transcript`).

Modelling conventions:
* a Python `bytes` frame is a `List Nat` of byte values;
* wall-clock times (`time.time()`) and the float parameters
  `silence_timeout` / `history_seconds` are integers (a fixed tick
  resolution, e.g. microseconds): the code only ever subtracts and
  compares these quantities, so any linearly ordered additive group
  models them faithfully;
* the webrtcvad classifier is an oracle `Frame → VadOutcome` where
  `VadOutcome.raised` models `vad.is_speech` raising an exception;
* the whisper transcription call is an oracle
  `List Nat → Option String` (WAV bytes to optional text), `none`
  modelling a failed call or an empty result;
* one iteration of the processing loop (lines 92-137 of
  audio_listener.py) is one step of the step function; the capture
  callback, `pause()` and `resume()` are separate atomic events.
-/

namespace Halloween

set_option maxRecDepth 100000
set_option maxHeartbeats 2000000

/-- A captured audio frame: the raw byte string handed to the processing
loop by the capture callback. -/
abbrev Frame := List Nat

/-- Outcome of one call to the voice-activity classifier
(`webrtcvad.Vad.is_speech`): a boolean verdict, or an exception. -/
inductive VadOutcome where
  | ok (b : Bool)
  | raised
deriving DecidableEq

/-- Lines 112-116 of audio_listener.py: `is_speech` is initialised to
`False` and only overwritten when `vad.is_speech` returns normally, so a
raising classifier leaves the frame classified as non-speech. -/
def vadClassify (vad : Frame → VadOutcome) (f : Frame) : Bool :=
  match vad f with
  | .ok b => b
  | .raised => false

/-- Field names of the `WhisperConfig` dataclass declared in
src/src/config.py (lines 12-22), in declaration order. -/
def whisperConfigFieldNames : List String :=
  ["model", "sample_rate", "chunk_duration_ms", "vad_sensitivity",
   "silence_timeout", "min_voice_ms", "history_seconds", "api_key",
   "input_device"]

/-- Modelled from the spec: the spec lists `activation_ms` among the
externally configurable parameters and line 85 of audio_listener.py
computes `activation_frames = max(1, self.config.activation_ms //
self.frame_duration_ms)`, but the `WhisperConfig` dataclass in
src/src/config.py declares no `activation_ms` field.  This function is
the arithmetic of line 85 (`//` is floor division on nonnegative
integers, i.e. `Nat` division). -/
def activationFramesCalc (activationMs frameDurationMs : Nat) : Nat :=
  max 1 (activationMs / frameDurationMs)

/-- Line 90 of audio_listener.py:
`min_frames = max(1, self.config.min_voice_ms // self.frame_duration_ms)`. -/
def minFramesCalc (minVoiceMs frameDurationMs : Nat) : Nat :=
  max 1 (minVoiceMs / frameDurationMs)

/-- The derived parameters the processing loop works with (lines 85-91
of audio_listener.py). -/
structure SegConfig where
  activationFrames : Nat
  minFrames : Nat
  silenceLimit : ℤ
  sampleRate : Nat
deriving DecidableEq

/-- The mutable segmentation state owned by the processing loop
(`voiced_frames`, `pending_frames`, `voice_active`, `speech_run`,
`last_voice_time` of `_process_frames`). -/
structure SegState where
  voicedFrames : List Frame
  pendingFrames : List Frame
  voiceActive : Bool
  speechRun : Nat
  lastVoiceTime : ℤ
deriving DecidableEq

/-- `collections.deque(maxlen := cap).append f`: append on the right,
evicting from the left whenever the capacity is exceeded. -/
def pushBounded (cap : Nat) (dq : List Frame) (f : Frame) : List Frame :=
  let dq := dq ++ [f]
  if cap < dq.length then dq.drop (dq.length - cap) else dq

/-- Little-endian encoding of a 16-bit field, as `struct.pack "<H"`
lays it out (values are reduced modulo 256 per byte). -/
def le16 (n : Nat) : List Nat :=
  [n % 256, n / 256 % 256]

/-- Little-endian encoding of a 32-bit field, as `struct.pack "<L"`
lays it out. -/
def le32 (n : Nat) : List Nat :=
  [n % 256, n / 256 % 256, n / 65536 % 256, n / 16777216 % 256]

/-- Decode a little-endian 16-bit field. -/
def readLE16 (b : List Nat) : Nat :=
  b.getD 0 0 + 256 * b.getD 1 0

/-- Decode a little-endian 32-bit field. -/
def readLE32 (b : List Nat) : Nat :=
  b.getD 0 0 + 256 * b.getD 1 0 + 65536 * b.getD 2 0 + 16777216 * b.getD 3 0

/-- The 44-byte canonical RIFF/WAVE header the Python `wave` module
writes for a mono, 16-bit stream once the data length has been patched
in on close: `RIFF`, chunk size, `WAVE`, `fmt `, subchunk size 16,
PCM format tag 1, 1 channel, frame rate, byte rate, block align 2,
16 bits per sample, `data`, data length. -/
def wavHeader (rate dataLen : Nat) : List Nat :=
  [82, 73, 70, 70] ++ le32 (36 + dataLen) ++
  [87, 65, 86, 69] ++ [102, 109, 116, 32] ++ le32 16 ++
  le16 1 ++ le16 1 ++ le32 rate ++ le32 (rate * 2) ++ le16 2 ++ le16 16 ++
  [100, 97, 116, 97] ++ le32 dataLen

/-- `AudioListener._frames_to_wav` (lines 213-221 of audio_listener.py):
open a WAVE writer on an in-memory buffer with 1 channel, sample width
2 and the configured sample rate, write every buffered frame in order,
and return the buffer contents. -/
def framesToWav (rate : Nat) (frames : List Frame) : List Nat :=
  wavHeader rate (frames.map List.length).sum ++ frames.flatten

/-- `AudioListener._flush_frames` (lines 201-211 of audio_listener.py):
a buffer shorter than `min_frames` is cleared and dropped with no
transcription call; otherwise the WAV container is built and handed to
`whisper_client.transcribe_wav`, and the (stripped) text is appended to
the transcript store when a result comes back.  The first component
records the buffers handed to the transcription collaborator, the
second the transcript texts appended. -/
def flushFrames (transcribe : List Nat → Option String)
    (rate : Nat) (frames : List Frame) (minFrames : Nat) :
    List (List Frame) × List String :=
  if frames.length < minFrames then ([], [])
  else
    match transcribe (framesToWav rate frames) with
    | none => ([frames], [])
    | some text => ([frames], [text.trim])

/-- Result of one or more processing-loop steps: the final segmentation
state, the buffers handed off to transcription, and the transcript
texts appended. -/
structure StepResult where
  state : SegState
  outs : List (List Frame)
  texts : List String
deriving DecidableEq

/-- One non-paused iteration of `AudioListener._process_frames`
(lines 99-137 of audio_listener.py) at wall-clock time `now`:
`frame?` is `some f` when the queue yielded the frame `f`, and `none`
when the 100ms poll timed out on an empty queue. -/
def procFrame (cfg : SegConfig) (vad : Frame → VadOutcome)
    (transcribe : List Nat → Option String)
    (s : SegState) (frame? : Option Frame) (now : ℤ) : StepResult :=
  match frame? with
  | none =>
    let s := { s with pendingFrames := [], speechRun := 0 }
    if s.voiceActive ∧ cfg.silenceLimit < now - s.lastVoiceTime then
      let r := flushFrames transcribe cfg.sampleRate s.voicedFrames cfg.minFrames
      ⟨{ s with voicedFrames := [], voiceActive := false }, r.1, r.2⟩
    else ⟨s, [], []⟩
  | some f =>
    if vadClassify vad f then
      let run := s.speechRun + 1
      if s.voiceActive then
        ⟨{ s with speechRun := run, voicedFrames := s.voicedFrames ++ [f], lastVoiceTime := now }, [], []⟩
      else
        let pending := pushBounded cfg.activationFrames s.pendingFrames f
        if cfg.activationFrames ≤ run then
          ⟨{ s with speechRun := run, voiceActive := true, voicedFrames := s.voicedFrames ++ pending, pendingFrames := [], lastVoiceTime := now }, [], []⟩
        else
          ⟨{ s with speechRun := run, pendingFrames := pending }, [], []⟩
    else
      let s := { s with speechRun := 0, pendingFrames := [] }
      if s.voiceActive then
        let s := { s with voicedFrames := s.voicedFrames ++ [f] }
        if cfg.silenceLimit < now - s.lastVoiceTime then
          let r := flushFrames transcribe cfg.sampleRate s.voicedFrames cfg.minFrames
          ⟨{ s with voicedFrames := [], voiceActive := false }, r.1, r.2⟩
        else ⟨s, [], []⟩
      else ⟨s, [], []⟩

/-- Run the processing loop over a sequence of dequeue results
(`some` frame or `none` timeout, each with its wall-clock time),
accumulating flushed buffers and transcript texts in order. -/
def procTrace (cfg : SegConfig) (vad : Frame → VadOutcome)
    (transcribe : List Nat → Option String)
    (s : SegState) : List (Option Frame × ℤ) → StepResult
  | [] => ⟨s, [], []⟩
  | (f?, t) :: rest =>
    let r := procFrame cfg vad transcribe s f? t
    let r' := procTrace cfg vad transcribe r.state rest
    ⟨r'.state, r.outs ++ r'.outs, r.texts ++ r'.texts⟩

/-- The full listener state visible to the capture callback and to
`pause`/`resume`: the segmentation state, the frame queue, and the
pause flag (`pause_event`). -/
structure ListenerState where
  seg : SegState
  queue : List Frame
  paused : Bool
deriving DecidableEq

/-- Events at the listener level: a capture-callback delivery, one
iteration of the processing loop at a given time, or a `pause()` /
`resume()` call from the orchestration layer. -/
inductive LEvent where
  | callback (f : Frame)
  | tick (now : ℤ)
  | pauseCall
  | resumeCall
deriving DecidableEq

/-- Result of listener-level steps. -/
structure LResult where
  state : ListenerState
  outs : List (List Frame)
  texts : List String
deriving DecidableEq

/-- One atomic listener-level event:
* `callback f` is `AudioListener._audio_callback` (lines 76-81):
  a frame is enqueued unless the pause flag is set;
* `pauseCall` is `AudioListener.pause` (lines 183-187): when not
  already paused, set the flag and drain the queue
  (`_clear_pending_audio`); the segmentation state is untouched;
* `resumeCall` is `AudioListener.resume` (lines 189-192): clear the
  flag;
* `tick now` is one iteration of `_process_frames`: when paused,
  lines 93-98 clear the utterance buffer, the pending window and the
  speech-run counter without dequeuing or classifying anything;
  otherwise the head of the queue (or a timeout) is processed by
  `procFrame`. -/
def listenerStep (cfg : SegConfig) (vad : Frame → VadOutcome)
    (transcribe : List Nat → Option String)
    (s : ListenerState) : LEvent → LResult
  | .callback f =>
    if s.paused then ⟨s, [], []⟩
    else ⟨{ s with queue := s.queue ++ [f] }, [], []⟩
  | .pauseCall =>
    if s.paused then ⟨s, [], []⟩
    else ⟨{ s with paused := true, queue := [] }, [], []⟩
  | .resumeCall => ⟨{ s with paused := false }, [], []⟩
  | .tick now =>
    if s.paused then
      ⟨{ s with seg := { s.seg with voicedFrames := [], pendingFrames := [], speechRun := 0 } }, [], []⟩
    else
      match s.queue with
      | [] =>
        let r := procFrame cfg vad transcribe s.seg none now
        ⟨{ s with seg := r.state }, r.outs, r.texts⟩
      | f :: rest =>
        let r := procFrame cfg vad transcribe s.seg (some f) now
        ⟨{ s with seg := r.state, queue := rest }, r.outs, r.texts⟩

/-- Run a sequence of listener-level events. -/
def listenerTrace (cfg : SegConfig) (vad : Frame → VadOutcome)
    (transcribe : List Nat → Option String)
    (s : ListenerState) : List LEvent → LResult
  | [] => ⟨s, [], []⟩
  | e :: rest =>
    let r := listenerStep cfg vad transcribe s e
    let r' := listenerTrace cfg vad transcribe r.state rest
    ⟨r'.state, r.outs ++ r'.outs, r.texts ++ r'.texts⟩

/-- The rolling transcript store: `self.transcripts`, a queue of
`(timestamp, text)` segments in insertion order. -/
structure TranscriptStore where
  segments : List (ℤ × String)
deriving DecidableEq

/-- `AudioListener._append_transcript` (lines 223-230 of
audio_listener.py): append the stripped text with the current time and
prune from the front every segment older than `history_seconds`
relative to the new entry. -/
def appendTranscript (store : TranscriptStore) (now : ℤ) (text : String)
    (historySeconds : ℤ) : TranscriptStore :=
  let segments := store.segments ++ [(now, text.trim)]
  ⟨segments.dropWhile (fun seg => seg.1 < now - historySeconds)⟩

/-- `AudioListener.get_recent_transcript` (lines 232-237 of
audio_listener.py) with the optional window already resolved (the
caller's override, or `history_seconds`): join the texts of all
segments with `timestamp ≥ now - window` by newlines, then clear the
entire store. -/
def getRecentTranscript (store : TranscriptStore) (now window : ℤ) :
    String × TranscriptStore :=
  let cutoff := now - window
  let recent := (store.segments.filter (fun seg => cutoff ≤ seg.1)).map (·.2)
  (String.intercalate "\n" recent, ⟨[]⟩)

/-- A 30ms speech frame at 16kHz mono 16-bit: 480 samples, 960 bytes.
The first byte is 1 so that `headVad` classifies it as speech. -/
def speechFrame : Frame := List.replicate 960 1

/-- A 30ms non-speech frame at 16kHz mono 16-bit: 480 samples, 960
bytes, classified as non-speech by `headVad`. -/
def silenceFrame : Frame := List.replicate 960 0

/-- A concrete deterministic classifier for scenarios: a frame is
speech exactly when its first byte is 1. -/
def headVad : Frame → VadOutcome := fun f => .ok (f.headD 0 == 1)

/-- The fresh segmentation state the processing loop starts from
(lines 84-89 of audio_listener.py). -/
def segIdle : SegState := ⟨[], [], false, 0, 0⟩

/-- The listener state right after `start()`: fresh segmentation state,
empty queue, pause flag clear. -/
def listenerIdle : ListenerState := ⟨segIdle, [], false⟩

/-- The spec's scenario configuration: 16kHz, 30ms frames,
`activation_ms = 90` (3 frames), `min_voice_ms = 300` (10 frames),
`silence_timeout = 1.0s` (1000 ms ticks). -/
def scenarioCfg : SegConfig :=
  ⟨activationFramesCalc 90 30, minFramesCalc 300 30, 1000, 16000⟩

/-- The spec's scenario input: 13 speech frames then 40 non-speech
frames, arriving every 30 ms starting at t = 30 ms. -/
def scenarioEvents : List (Option Frame × ℤ) :=
  ((List.range 13).map (fun i => ((some speechFrame : Option Frame), ((i : ℤ) + 1) * 30))) ++
  ((List.range 40).map (fun j => ((some silenceFrame : Option Frame), ((j : ℤ) + 14) * 30)))

/-- The spec's scenario run, from the fresh state, with a transcription
collaborator that returns no result (the flush behaviour under scrutiny
does not depend on the transcription result). -/
def scenarioRun : StepResult :=
  procTrace scenarioCfg headVad (fun _ => none) segIdle scenarioEvents

/-- Configuration for the pause/resume scenario: `activation_frames = 2`
so that a committed-without-activation frame is observable,
`min_frames = 1`, 1000 ms silence timeout. -/
def pauseCfg : SegConfig := ⟨2, 1, 1000, 16000⟩

/-- Listener state reached from idle by: two speech frames processed
(the machine activates with both buffered), then `pause()`, one paused
loop iteration, then `resume()`. -/
def resumedState : ListenerState :=
  (listenerTrace pauseCfg headVad (fun _ => none) listenerIdle
    [.callback [1], .tick 30, .callback [1], .tick 60, .pauseCall, .tick 90, .resumeCall]).state

/-- `resumedState` after one more speech frame is captured and
processed. -/
def resumedFedState : ListenerState :=
  (listenerTrace pauseCfg headVad (fun _ => none) resumedState
    [.callback [1], .tick 120]).state

/-- Configuration for the pause-mid-utterance scenario:
`activation_frames = 1`, `min_frames = 5`. -/
def shortCfg : SegConfig := ⟨1, 5, 1000, 16000⟩

/-- Listener state paused mid-utterance is taken from: one speech frame
processed (machine ACTIVE, buffer holds it), and a second frame
enqueued by the capture callback but not yet processed. -/
def prePauseState : ListenerState :=
  (listenerTrace shortCfg headVad (fun _ => none) listenerIdle
    [.callback [1], .tick 30, .callback [1]]).state

/-- `prePauseState` at the moment `pause()` returns. -/
def postPauseState : ListenerState :=
  (listenerStep shortCfg headVad (fun _ => none) prePauseState .pauseCall).state

/-! ### Helper lemmas -/

/-- A buffer shorter than `min_frames` is dropped silently: no
transcription call, no transcript text. -/
theorem flushFrames_of_short (transcribe : List Nat → Option String) (rate : Nat)
    (frames : List Frame) (minFrames : Nat) (h : frames.length < minFrames) :
    flushFrames transcribe rate frames minFrames = ([], []) := by
  simp [flushFrames, h]

/-- Any buffer handed to the transcription collaborator by
`_flush_frames` is the whole buffer and meets the minimum length. -/
theorem flushFrames_mem_outs (transcribe : List Nat → Option String) (rate : Nat)
    (frames : List Frame) (minFrames : Nat) (o : List Frame)
    (ho : o ∈ (flushFrames transcribe rate frames minFrames).1) :
    minFrames ≤ o.length ∧ o = frames := by
  rcases Nat.lt_or_ge frames.length minFrames with h | h
  · rw [flushFrames_of_short _ _ _ _ h] at ho
    simp at ho
  · unfold flushFrames at ho
    rw [if_neg (Nat.not_lt.mpr h)] at ho
    cases htr : transcribe (framesToWav rate frames) <;> rw [htr] at ho <;>
      simp at ho <;> subst ho <;> exact ⟨h, rfl⟩

/-- Every buffer emitted by one processing-loop iteration meets the
minimum length. -/
theorem procFrame_outs_min (cfg : SegConfig) (vad : Frame → VadOutcome)
    (transcribe : List Nat → Option String) (s : SegState) (frame? : Option Frame) (now : ℤ) :
    ∀ o ∈ (procFrame cfg vad transcribe s frame? now).outs, cfg.minFrames ≤ o.length := by
  intro o ho
  cases frame? with
  | none =>
    simp only [procFrame] at ho
    split at ho
    · exact (flushFrames_mem_outs _ _ _ _ _ ho).1
    · simp at ho
  | some f =>
    simp only [procFrame] at ho
    split at ho
    · split at ho <;> [skip; split at ho] <;> simp at ho
    · split at ho
      · split at ho
        · exact (flushFrames_mem_outs _ _ _ _ _ ho).1
        · simp at ho
      · simp at ho

/-- Every buffer emitted over a whole run of the processing loop meets
the minimum length. -/
theorem procTrace_outs_min (cfg : SegConfig) (vad : Frame → VadOutcome)
    (transcribe : List Nat → Option String) (evs : List (Option Frame × ℤ)) (s : SegState) :
    ∀ o ∈ (procTrace cfg vad transcribe s evs).outs, cfg.minFrames ≤ o.length := by
  induction evs generalizing s with
  | nil => simp [procTrace]
  | cons e rest ih =>
    obtain ⟨f?, t⟩ := e
    intro o ho
    simp only [procTrace, List.mem_append] at ho
    rcases ho with ho | ho
    · exact procFrame_outs_min cfg vad transcribe s f? t o ho
    · exact ih _ o ho

/-- The data chunk of the produced WAVE container is exactly the
concatenation of the buffered frames. -/
theorem wav_data_bytes (rate : Nat) (frames : List Frame) :
    (framesToWav rate frames).drop 44 = frames.flatten := rfl

/-- Byte length of the data chunk of the produced WAVE container. -/
theorem wav_data_length (rate : Nat) (frames : List Frame) :
    ((framesToWav rate frames).drop 44).length = (frames.map List.length).sum := by
  rw [wav_data_bytes]
  exact List.length_flatten frames

/-- Appending to the bounded pending window below capacity evicts
nothing. -/
theorem pushBounded_of_le (cap : Nat) (dq : List Frame) (f : Frame)
    (h : dq.length + 1 ≤ cap) : pushBounded cap dq f = dq ++ [f] := by
  simp only [pushBounded]
  rw [if_neg (by simp only [List.length_append, List.length_cons, List.length_nil]; omega)]

/-- During an activation run from an idle state whose pending window
already holds `speech_run` frames, feeding speech frames until the run
reaches `activation_frames` activates the machine and seeds the
utterance buffer with the pending window followed by the fed frames. -/
theorem activation_run_seed (cfg : SegConfig) (vad : Frame → VadOutcome)
    (transcribe : List Nat → Option String) (fts : List (Frame × ℤ)) :
    ∀ s : SegState,
      s.voiceActive = false → s.voicedFrames = [] →
      s.speechRun = s.pendingFrames.length →
      s.pendingFrames.length + fts.length = cfg.activationFrames →
      fts ≠ [] →
      (∀ ft ∈ fts, vadClassify vad ft.1 = true) →
      (procTrace cfg vad transcribe s (fts.map (fun ft => (some ft.1, ft.2)))).state.voiceActive = true ∧
      (procTrace cfg vad transcribe s (fts.map (fun ft => (some ft.1, ft.2)))).state.voicedFrames =
        s.pendingFrames ++ fts.map (fun ft => ft.1) ∧
      (procTrace cfg vad transcribe s (fts.map (fun ft => (some ft.1, ft.2)))).state.pendingFrames = [] := by
  induction fts with
  | nil => intro s _ _ _ _ hne _; exact absurd rfl hne
  | cons ft rest ih =>
    obtain ⟨f, t⟩ := ft
    intro s hva hvf hrun hlen _ hsp
    have hf : vadClassify vad f = true := hsp (f, t) (List.mem_cons_self _ _)
    have hlen' : s.pendingFrames.length + (rest.length + 1) = cfg.activationFrames := by
      simpa using hlen
    have hpush : pushBounded cfg.activationFrames s.pendingFrames f = s.pendingFrames ++ [f] :=
      pushBounded_of_le _ _ _ (by omega)
    rcases eq_or_ne rest [] with hrest | hrest
    · subst hrest
      have hcap : cfg.activationFrames ≤ s.speechRun + 1 := by
        simp only [List.length_nil] at hlen'
        omega
      simp only [List.map_cons, List.map_nil, procTrace, procFrame, hf, hva, hpush, hcap,
        if_true, if_false, Bool.false_eq_true, eq_self_iff_true]
      simp [hvf]
    · have hlt : ¬ cfg.activationFrames ≤ s.speechRun + 1 := by
        have : rest.length ≠ 0 := fun h => hrest (List.eq_nil_of_length_eq_zero h)
        omega
      have hstep : procFrame cfg vad transcribe s (some f) t =
          ⟨{ s with speechRun := s.speechRun + 1, pendingFrames := s.pendingFrames ++ [f] }, [], []⟩ := by
        simp only [procFrame, hf, hva, hpush, hlt, if_true, if_false, Bool.false_eq_true]
      have ih' := ih { s with speechRun := s.speechRun + 1, pendingFrames := s.pendingFrames ++ [f] }
        hva hvf (by simp; omega) (by simp; omega) hrest
        (fun ft hft => hsp ft (List.mem_cons_of_mem _ hft))
      simp only [List.map_cons, procTrace, hstep, List.nil_append]
      refine ⟨ih'.1, ?_, ih'.2.2⟩
      rw [ih'.2.1]
      simp

/-! ### Claim theorems -/

/-- C1: for every sequence of frames (and queue-empty polls) fed to the
segmentation state machine, a buffer is handed to the transcription
collaborator only when it holds at least `min_frames` frames at flush
time; and any flush of a shorter buffer is discarded silently, with no
transcription call and no transcript text produced. -/
theorem utterance_flush_min_frames (cfg : SegConfig) (vad : Frame → VadOutcome)
    (transcribe : List Nat → Option String) (s : SegState) (evs : List (Option Frame × ℤ)) :
    (∀ o ∈ (procTrace cfg vad transcribe s evs).outs, cfg.minFrames ≤ o.length) ∧
    (∀ frames : List Frame, frames.length < cfg.minFrames →
      flushFrames transcribe cfg.sampleRate frames cfg.minFrames = ([], [])) :=
  ⟨procTrace_outs_min cfg vad transcribe evs s,
   fun frames h => flushFrames_of_short transcribe cfg.sampleRate frames cfg.minFrames h⟩

/-- Witness for C1: a concrete run with one flush (of exactly
`min_frames = 1` frames), and a concrete short flush that is dropped. -/
theorem utterance_flush_min_frames_witness :
    ([[5]] ∈ (procTrace ⟨1, 1, 1000, 16000⟩ (fun _ => .ok true) (fun _ => none) segIdle
        [(some [5], 30), (none, 2000)]).outs ∧
      (1 : Nat) ≤ ([[5]] : List (List Nat)).length) ∧
    (([] : List Frame).length < 1 ∧
      flushFrames (fun _ => none) 16000 [] 1 = ([], [])) := by
  have h := utterance_flush_min_frames ⟨1, 1, 1000, 16000⟩ (fun _ => .ok true)
    (fun _ => none) segIdle [(some [5], 30), (none, 2000)]
  exact ⟨⟨by decide, h.1 [[5]] (by decide)⟩, by decide, h.2 [] (by decide)⟩

/-- C2: from the fresh IDLE state (no pending frames, zero speech run,
empty utterance buffer), processing exactly `activation_frames`
consecutive speech-classified frames — with no non-speech frame and no
queue-empty poll in between — makes the machine ACTIVE, the utterance
buffer holds exactly those frames in arrival order, and the pending
window is empty afterwards. -/
theorem activation_preroll (cfg : SegConfig) (vad : Frame → VadOutcome)
    (transcribe : List Nat → Option String) (s : SegState) (fts : List (Frame × ℤ))
    (hcap : 1 ≤ cfg.activationFrames)
    (hva : s.voiceActive = false) (hvf : s.voicedFrames = [])
    (hpend : s.pendingFrames = []) (hrun : s.speechRun = 0)
    (hlen : fts.length = cfg.activationFrames)
    (hsp : ∀ ft ∈ fts, vadClassify vad ft.1 = true) :
    (procTrace cfg vad transcribe s (fts.map (fun ft => (some ft.1, ft.2)))).state.voiceActive = true ∧
    (procTrace cfg vad transcribe s (fts.map (fun ft => (some ft.1, ft.2)))).state.voicedFrames =
      fts.map (fun ft => ft.1) ∧
    (procTrace cfg vad transcribe s (fts.map (fun ft => (some ft.1, ft.2)))).state.pendingFrames = [] := by
  have hne : fts ≠ [] := by
    have : 0 < fts.length := by omega
    exact List.length_pos.mp this
  have h := activation_run_seed cfg vad transcribe fts s hva hvf
    (by rw [hrun, hpend]; rfl) (by rw [hpend]; simpa using hlen) hne hsp
  rw [hpend] at h
  simpa using h

/-- Witness for C2: activation threshold 2, two speech frames. -/
theorem activation_preroll_witness :
    (procTrace ⟨2, 10, 1000, 16000⟩ (fun _ => .ok true) (fun _ => none) segIdle
        [(some [1], 30), (some [2], 60)]).state.voiceActive = true ∧
    (procTrace ⟨2, 10, 1000, 16000⟩ (fun _ => .ok true) (fun _ => none) segIdle
        [(some [1], 30), (some [2], 60)]).state.voicedFrames = [[1], [2]] ∧
    (procTrace ⟨2, 10, 1000, 16000⟩ (fun _ => .ok true) (fun _ => none) segIdle
        [(some [1], 30), (some [2], 60)]).state.pendingFrames = [] := by
  have h := activation_preroll ⟨2, 10, 1000, 16000⟩ (fun _ => .ok true) (fun _ => none) segIdle
    [([1], 30), ([2], 60)] (by decide) rfl rfl rfl rfl (by decide) (by decide)
  simpa using h

/-- C3: the payload produced from a non-empty buffer is a RIFF/WAVE
container declaring 1 channel, 16-bit (2-byte) samples and the
configured sample rate, and its data chunk is the byte-concatenation of
the buffered frame byte-strings in buffer order. -/
theorem frames_to_wav_container (rate : Nat) (frames : List Frame)
    (hne : frames ≠ []) (hrate : rate < 4294967296) :
    (framesToWav rate frames).take 4 = [82, 73, 70, 70] ∧
    ((framesToWav rate frames).drop 8).take 4 = [87, 65, 86, 69] ∧
    readLE16 (((framesToWav rate frames).drop 22).take 2) = 1 ∧
    readLE32 (((framesToWav rate frames).drop 24).take 4) = rate ∧
    readLE16 (((framesToWav rate frames).drop 32).take 2) = 2 ∧
    readLE16 (((framesToWav rate frames).drop 34).take 2) = 16 ∧
    (framesToWav rate frames).drop 44 = frames.flatten := by
  have h22 : ((framesToWav rate frames).drop 22).take 2 = le16 1 := rfl
  have h24 : ((framesToWav rate frames).drop 24).take 4 = le32 rate := rfl
  have h32 : ((framesToWav rate frames).drop 32).take 2 = le16 2 := rfl
  have h34 : ((framesToWav rate frames).drop 34).take 2 = le16 16 := rfl
  refine ⟨rfl, rfl, ?_, ?_, ?_, ?_, rfl⟩
  · rw [h22]; norm_num [readLE16, le16]
  · rw [h24]
    simp only [readLE32, le32, List.getD_cons_zero, List.getD_cons_succ]
    omega
  · rw [h32]; norm_num [readLE16, le16]
  · rw [h34]; norm_num [readLE16, le16]

/-- Witness for C3 at a concrete rate and buffer. -/
theorem frames_to_wav_container_witness :
    (framesToWav 16000 [[7, 8]]).take 4 = [82, 73, 70, 70] ∧
    ((framesToWav 16000 [[7, 8]]).drop 8).take 4 = [87, 65, 86, 69] ∧
    readLE16 (((framesToWav 16000 [[7, 8]]).drop 22).take 2) = 1 ∧
    readLE32 (((framesToWav 16000 [[7, 8]]).drop 24).take 4) = 16000 ∧
    readLE16 (((framesToWav 16000 [[7, 8]]).drop 32).take 2) = 2 ∧
    readLE16 (((framesToWav 16000 [[7, 8]]).drop 34).take 2) = 16 ∧
    (framesToWav 16000 [[7, 8]]).drop 44 = ([[7, 8]] : List Frame).flatten :=
  frames_to_wav_container 16000 [[7, 8]] (by decide) (by decide)

/-- C9: a frame on which the classifier raises is processed exactly as
a frame classified non-speech — the resulting state, transcription
calls and transcript texts coincide — and the loop continues (the step
is total). -/
theorem vad_exception_as_nonspeech (cfg : SegConfig) (vad1 vad2 : Frame → VadOutcome)
    (transcribe : List Nat → Option String) (s : SegState) (f : Frame) (now : ℤ)
    (h1 : vad1 f = .raised) (h2 : vad2 f = .ok false) :
    procFrame cfg vad1 transcribe s (some f) now =
      procFrame cfg vad2 transcribe s (some f) now := by
  simp only [procFrame, vadClassify, h1, h2]

/-- Witness for C9 at a concrete state and frame. -/
theorem vad_exception_as_nonspeech_witness :
    procFrame ⟨3, 10, 1000, 16000⟩ (fun _ => .raised) (fun _ => none) segIdle (some [3]) 5 =
      procFrame ⟨3, 10, 1000, 16000⟩ (fun _ => .ok false) (fun _ => none) segIdle (some [3]) 5 :=
  vad_exception_as_nonspeech _ _ _ _ _ _ _ rfl rfl

/-- C10: a queue-empty poll clears the pending window and resets the
speech-run counter regardless of state; the utterance buffer and the
active flag are untouched and nothing is flushed unless the machine is
ACTIVE with the silence timeout elapsed, in which case the buffer is
flushed and the machine returns to IDLE. -/
theorem empty_poll_resets (cfg : SegConfig) (vad : Frame → VadOutcome)
    (transcribe : List Nat → Option String) (s : SegState) (now : ℤ) :
    (procFrame cfg vad transcribe s none now).state.pendingFrames = [] ∧
    (procFrame cfg vad transcribe s none now).state.speechRun = 0 ∧
    (¬ (s.voiceActive = true ∧ cfg.silenceLimit < now - s.lastVoiceTime) →
      (procFrame cfg vad transcribe s none now).state.voicedFrames = s.voicedFrames ∧
      (procFrame cfg vad transcribe s none now).state.voiceActive = s.voiceActive ∧
      (procFrame cfg vad transcribe s none now).outs = []) ∧
    (s.voiceActive = true → cfg.silenceLimit < now - s.lastVoiceTime →
      (procFrame cfg vad transcribe s none now).state.voicedFrames = [] ∧
      (procFrame cfg vad transcribe s none now).state.voiceActive = false) := by
  by_cases hc : s.voiceActive = true ∧ cfg.silenceLimit < now - s.lastVoiceTime
  · refine ⟨?_, ?_, fun h => absurd hc h, fun _ _ => ⟨?_, ?_⟩⟩ <;>
      simp [procFrame, hc]
  · refine ⟨?_, ?_, fun _ => ⟨?_, ?_, ?_⟩, fun h1 h2 => absurd ⟨h1, h2⟩ hc⟩ <;>
      simp [procFrame, hc]

/-- Witness for C10: a queue-empty poll on a non-ACTIVE state with a
pending activation run in progress abandons the run and leaves the
buffer alone. -/
theorem empty_poll_resets_witness :
    (procFrame ⟨3, 10, 1000, 16000⟩ headVad (fun _ => none) ⟨[[9]], [[8]], false, 2, 0⟩ none 50).state.pendingFrames = [] ∧
    (procFrame ⟨3, 10, 1000, 16000⟩ headVad (fun _ => none) ⟨[[9]], [[8]], false, 2, 0⟩ none 50).state.speechRun = 0 ∧
    (procFrame ⟨3, 10, 1000, 16000⟩ headVad (fun _ => none) ⟨[[9]], [[8]], false, 2, 0⟩ none 50).state.voicedFrames = [[9]] ∧
    (procFrame ⟨3, 10, 1000, 16000⟩ headVad (fun _ => none) ⟨[[9]], [[8]], false, 2, 0⟩ none 50).outs = [] := by
  have h := empty_poll_resets ⟨3, 10, 1000, 16000⟩ headVad (fun _ => none)
    ⟨[[9]], [[8]], false, 2, 0⟩ 50
  have h3 := h.2.2.1 (by decide)
  exact ⟨h.1, h.2.1, h3.1, h3.2.2⟩

/-- C4 counterexample: in the spec's scenario (3 speech frames, 10 more
speech frames, 40 non-speech frames at 30ms spacing, 1s silence
timeout) exactly one flush occurs, but its WAVE payload carries
45120 = 47 * 480 * 2 bytes of PCM data, not 13 * 480 * 2 = 12480:
lines 130-137 of audio_listener.py append non-speech frames to the
utterance buffer while ACTIVE, so the 34 trailing silence frames
processed before the timeout elapsed are flushed alongside the 13
speech frames. -/
theorem scenario_payload_cex :
    scenarioRun.outs.map (fun fs => ((framesToWav 16000 fs).drop 44).length) = [45120] ∧
    ¬ (45120 = 13 * 480 * 2) := by
  constructor
  · simp only [wav_data_length]
    decide
  · decide

/-- C4 amended: with the scenario configuration (16kHz mono, 30ms
480-sample frames, activation 3 frames, minimum 10 frames, 1s silence
timeout), 3 speech frames make the machine ACTIVE with 3 buffered
frames; 10 further speech frames followed by 40 non-speech frames cause
exactly one flush, whose buffer holds 47 frames — the 13 speech frames
plus the 34 trailing non-speech frames appended before the silence
timeout elapsed — and whose WAVE payload carries 47 * 480 * 2 = 45120
bytes of PCM data. -/
theorem scenario_payload_amended :
    (procTrace scenarioCfg headVad (fun _ => none) segIdle (scenarioEvents.take 3)).state.voiceActive = true ∧
    (procTrace scenarioCfg headVad (fun _ => none) segIdle (scenarioEvents.take 3)).state.voicedFrames.length = 3 ∧
    scenarioRun.outs.map List.length = [47] ∧
    scenarioRun.outs.map (fun fs => ((framesToWav 16000 fs).drop 44).length) = [47 * 480 * 2] ∧
    scenarioRun.state.voiceActive = false := by
  refine ⟨by decide, by decide, by decide, ?_, by decide⟩
  simp only [wav_data_length]
  decide

/-- C5 counterexample: pausing while an utterance is ACTIVE and then
resuming leaves the machine with voice_active still set (the pause
branch, lines 93-98 of audio_listener.py, clears the buffers and the
speech run but not the flag), and the first speech frame processed
after resume is appended directly to the utterance buffer with a speech
run of 1 < activation_frames = 2: the machine did not resume from IDLE
and no fresh activation run was required. -/
theorem resume_not_idle_cex :
    resumedState.seg.voiceActive = true ∧
    resumedState.seg.voicedFrames = [] ∧
    resumedFedState.seg.voicedFrames = [[1]] ∧
    resumedFedState.seg.speechRun = 1 ∧
    pauseCfg.activationFrames = 2 := by decide

/-- C5 amended: after pause(), one paused loop iteration and resume(),
the utterance buffer, pending window and speech-run counter are cleared
and the queue is empty, but the voice-active flag keeps its value from
before the pause; so when the machine was ACTIVE at pause time it is
still ACTIVE after resume, and the first speech frame processed after
resume is committed directly to the utterance buffer without a fresh
activation run. -/
theorem resume_keeps_active_flag (cfg : SegConfig) (vad : Frame → VadOutcome)
    (transcribe : List Nat → Option String) (s : ListenerState) (t now : ℤ) (f : Frame)
    (hp : s.paused = false) (hact : s.seg.voiceActive = true)
    (hf : vadClassify vad f = true) :
    ((listenerTrace cfg vad transcribe s [.pauseCall, .tick t, .resumeCall]).state.seg.voiceActive = true ∧
     (listenerTrace cfg vad transcribe s [.pauseCall, .tick t, .resumeCall]).state.seg.voicedFrames = [] ∧
     (listenerTrace cfg vad transcribe s [.pauseCall, .tick t, .resumeCall]).state.seg.pendingFrames = [] ∧
     (listenerTrace cfg vad transcribe s [.pauseCall, .tick t, .resumeCall]).state.seg.speechRun = 0 ∧
     (listenerTrace cfg vad transcribe s [.pauseCall, .tick t, .resumeCall]).state.queue = []) ∧
    ((listenerTrace cfg vad transcribe s [.pauseCall, .tick t, .resumeCall, .callback f, .tick now]).state.seg.voicedFrames = [f] ∧
     (listenerTrace cfg vad transcribe s [.pauseCall, .tick t, .resumeCall, .callback f, .tick now]).state.seg.voiceActive = true ∧
     (listenerTrace cfg vad transcribe s [.pauseCall, .tick t, .resumeCall, .callback f, .tick now]).state.seg.speechRun = 1) := by
  simp [listenerTrace, listenerStep, procFrame, hp, hact, hf]

/-- Witness for C5's amended theorem: a concrete ACTIVE listener state,
paused, ticked once, resumed, then fed one speech frame. -/
theorem resume_keeps_active_flag_witness :
    ((listenerTrace pauseCfg headVad (fun _ => none) ⟨⟨[[1], [1]], [], true, 2, 60⟩, [], false⟩
        [.pauseCall, .tick 90, .resumeCall]).state.seg.voiceActive = true ∧
     (listenerTrace pauseCfg headVad (fun _ => none) ⟨⟨[[1], [1]], [], true, 2, 60⟩, [], false⟩
        [.pauseCall, .tick 90, .resumeCall]).state.seg.voicedFrames = [] ∧
     (listenerTrace pauseCfg headVad (fun _ => none) ⟨⟨[[1], [1]], [], true, 2, 60⟩, [], false⟩
        [.pauseCall, .tick 90, .resumeCall]).state.seg.pendingFrames = [] ∧
     (listenerTrace pauseCfg headVad (fun _ => none) ⟨⟨[[1], [1]], [], true, 2, 60⟩, [], false⟩
        [.pauseCall, .tick 90, .resumeCall]).state.seg.speechRun = 0 ∧
     (listenerTrace pauseCfg headVad (fun _ => none) ⟨⟨[[1], [1]], [], true, 2, 60⟩, [], false⟩
        [.pauseCall, .tick 90, .resumeCall]).state.queue = []) ∧
    ((listenerTrace pauseCfg headVad (fun _ => none) ⟨⟨[[1], [1]], [], true, 2, 60⟩, [], false⟩
        [.pauseCall, .tick 90, .resumeCall, .callback [1], .tick 120]).state.seg.voicedFrames = [[1]] ∧
     (listenerTrace pauseCfg headVad (fun _ => none) ⟨⟨[[1], [1]], [], true, 2, 60⟩, [], false⟩
        [.pauseCall, .tick 90, .resumeCall, .callback [1], .tick 120]).state.seg.voiceActive = true ∧
     (listenerTrace pauseCfg headVad (fun _ => none) ⟨⟨[[1], [1]], [], true, 2, 60⟩, [], false⟩
        [.pauseCall, .tick 90, .resumeCall, .callback [1], .tick 120]).state.seg.speechRun = 1) :=
  resume_keeps_active_flag pauseCfg headVad (fun _ => none)
    ⟨⟨[[1], [1]], [], true, 2, 60⟩, [], false⟩ 90 120 [1] rfl rfl (by decide)

/-- C6 counterexample: with the machine ACTIVE holding one buffered
frame and a second frame enqueued but not yet processed, pause()
(lines 183-187 of audio_listener.py) drains the queue but leaves the
utterance buffer untouched, so at the moment pause() returns the
buffer is not empty — it is cleared only by the processing loop's next
iteration (lines 93-98). -/
theorem pause_immediate_cex :
    prePauseState.seg.voicedFrames = [[1]] ∧
    prePauseState.queue = [[1]] ∧
    prePauseState.paused = false ∧
    postPauseState.seg.voicedFrames = [[1]] ∧
    postPauseState.queue = [] := by decide

/-- C6 amended: when pause() returns, every frame enqueued before the
pause but not yet processed has been discarded (the queue is drained)
and is never classified — the paused processing loop consults neither
the queue nor the classifier; the utterance buffer and pending window
are cleared at the processing loop's first iteration after the pause
rather than at the moment pause() returns. -/
theorem pause_discards_and_clears (cfg : SegConfig) (vad : Frame → VadOutcome)
    (transcribe : List Nat → Option String) (s : ListenerState) (t : ℤ)
    (hp : s.paused = false) :
    (listenerStep cfg vad transcribe s .pauseCall).state.queue = [] ∧
    (listenerStep cfg vad transcribe s .pauseCall).state.paused = true ∧
    (listenerStep cfg vad transcribe s .pauseCall).state.seg = s.seg ∧
    (listenerStep cfg vad transcribe (listenerStep cfg vad transcribe s .pauseCall).state (.tick t)).state.seg.voicedFrames = [] ∧
    (listenerStep cfg vad transcribe (listenerStep cfg vad transcribe s .pauseCall).state (.tick t)).state.seg.pendingFrames = [] ∧
    (listenerStep cfg vad transcribe (listenerStep cfg vad transcribe s .pauseCall).state (.tick t)).state.seg.speechRun = 0 ∧
    (listenerStep cfg vad transcribe (listenerStep cfg vad transcribe s .pauseCall).state (.tick t)).state.queue = [] ∧
    (listenerStep cfg vad transcribe (listenerStep cfg vad transcribe s .pauseCall).state (.tick t)).outs = [] ∧
    (∀ vad2 : Frame → VadOutcome,
      listenerStep cfg vad2 transcribe (listenerStep cfg vad transcribe s .pauseCall).state (.tick t) =
        listenerStep cfg vad transcribe (listenerStep cfg vad transcribe s .pauseCall).state (.tick t)) := by
  simp [listenerStep, hp]

/-- Witness for C6's amended theorem at a concrete paused-mid-utterance
state, with the classifier-independence conjunct instantiated at a
raising classifier. -/
theorem pause_discards_and_clears_witness :
    postPauseState.queue = [] ∧
    postPauseState.paused = true ∧
    (listenerStep shortCfg headVad (fun _ => none) postPauseState (.tick 60)).state.seg.voicedFrames = [] ∧
    (listenerStep shortCfg headVad (fun _ => none) postPauseState (.tick 60)).state.queue = [] ∧
    listenerStep shortCfg (fun _ => .raised) (fun _ => none) postPauseState (.tick 60) =
      listenerStep shortCfg headVad (fun _ => none) postPauseState (.tick 60) := by
  have h := pause_discards_and_clears shortCfg headVad (fun _ => none) prePauseState 60 (by decide)
  exact ⟨h.1, h.2.1, h.2.2.2.1, h.2.2.2.2.2.2.1, h.2.2.2.2.2.2.2.2 (fun _ => .raised)⟩

/-- C7: the claim fails on the configuration type as declared —
`activation_ms` is not among the fields of the WhisperConfig dataclass
of src/src/config.py, although line 85 of audio_listener.py reads
`self.config.activation_ms` to compute the activation threshold, so on
every configuration instance that attribute access raises
AttributeError instead of being well-defined.  The prescribed
arithmetic itself, at the spec's scenario values (90ms activation, 30ms
frames), yields 3 activation frames. -/
theorem whisper_config_lacks_activation_ms :
    ¬ ("activation_ms" ∈ whisperConfigFieldNames) ∧
    activationFramesCalc 90 30 = 3 := by
  constructor
  · simp [whisperConfigFieldNames]
  · rfl

/-- C8: `get_recent_transcript` is a destructive read that clears the
whole store: the first of two consecutive calls leaves the store empty,
so the second call (with no segments appended in between) always
returns the empty string; in particular two consecutive drains of a
store with no recent segments return ("", ""). -/
theorem get_recent_transcript_destructive (store : TranscriptStore) (n1 w1 n2 w2 : ℤ) :
    ((getRecentTranscript store n1 w1).2).segments = [] ∧
    (getRecentTranscript ((getRecentTranscript store n1 w1).2) n2 w2).1 = "" ∧
    (getRecentTranscript (⟨[]⟩ : TranscriptStore) n1 w1).1 = "" := by
  refine ⟨rfl, ?_, ?_⟩ <;> simp [getRecentTranscript, String.intercalate]

end Halloween
